import Mathlib

/-!
Verification development for the browser-based EXIF metadata tool
(metadata-viewer.js, metadata-remover.js, main.js and the two unnamed
legacy variants).  JavaScript numbers are modelled as exact rationals
extended with NaN and the two infinities; JavaScript values as an
inductive covering the value shapes that flow through the metadata
pipeline (undefined, null, booleans, numbers, strings, arrays).  A
thrown exception is modelled as `Except.error ()`.

Rational arithmetic is implemented through `mkRat` and `Rat.divInt`
(which the kernel evaluates), and connected to the standard `Rat`
operations by the bridge lemmas `ratAdd_eq`, `ratMul_eq`, `ratNeg_eq`
and `ratDiv_eq` below.
-/

/-- Addition of rationals in `mkRat` form (equal to `a + b`, see
`ratAdd_eq`). -/
def ratAdd (a b : ℚ) : ℚ := mkRat (a.num * b.den + b.num * a.den) (a.den * b.den)

/-- Multiplication of rationals in `mkRat` form (equal to `a * b`, see
`ratMul_eq`). -/
def ratMul (a b : ℚ) : ℚ := mkRat (a.num * b.num) (a.den * b.den)

/-- Negation of rationals in `mkRat` form (equal to `-a`, see
`ratNeg_eq`). -/
def ratNeg (a : ℚ) : ℚ := mkRat (-a.num) a.den

/-- Division of rationals in `divInt` form (equal to `a / b` for `b ≠ 0`,
see `ratDiv_eq`). -/
def ratDiv (a b : ℚ) : ℚ := Rat.divInt (a.num * b.den) (a.den * b.num)

/-- Model of a JavaScript number: NaN, +Infinity, -Infinity, or a finite
value represented exactly as a rational.  (IEEE-754 rounding and the
negative zero are abstracted away: every finite value is an exact
rational; the functions verified here only ever produce terminating
decimals at the inputs used in the theorems.) -/
inductive JSNum where
  | nan : JSNum
  | inf : JSNum
  | ninf : JSNum
  | num (q : ℚ) : JSNum
deriving DecidableEq

/-- Model of a JavaScript value as it appears in the EXIF pipeline:
undefined, null, boolean, number, string, or array. -/
inductive JSVal where
  | undef : JSVal
  | null : JSVal
  | bool (b : Bool) : JSVal
  | num (n : JSNum) : JSVal
  | str (s : String) : JSVal
  | arr (l : List JSVal) : JSVal

/-- The apostrophe character, written via its code point. -/
def aposStr : String := String.singleton (Char.ofNat 39)

/-- The double-quote character, written via its code point. -/
def quoteStr : String := String.singleton (Char.ofNat 34)

/-- Decimal digit character for a digit value below 10. -/
def digitChar (n : ℕ) : Char := Char.ofNat (48 + n)

/-- Fractional decimal digits of a rational in `[0, 1)`, at most `fuel`
digits, stopping exactly when the remainder reaches zero (so the result
carries no trailing zeros).  Each step multiplies by ten, takes the
floor digit and keeps the remainder. -/
def fracDigits : ℚ → ℕ → List Char
  | _, 0 => []
  | q, fuel + 1 =>
    if q = 0 then []
    else
      let q10 : ℚ := mkRat (q.num * 10) q.den
      let d := q10.floor
      digitChar d.toNat :: fracDigits (mkRat (q10.num - d * q10.den) q10.den) fuel

/-- Decimal string of a nonnegative rational, integer part followed by
the (terminating, up to 20 digits) fractional expansion.  This matches
the JavaScript default number-to-string conversion on every value this
development evaluates (all of which are terminating decimals). -/
def posRatToString (q : ℚ) : String :=
  let ip := q.floor.toNat
  let fd := fracDigits (mkRat (q.num - q.floor * q.den) q.den) 20
  if fd.isEmpty then toString ip else toString ip ++ "." ++ String.mk fd

/-- JavaScript default number-to-string conversion on the `JSNum` model. -/
def numToString : JSNum → String
  | .nan => "NaN"
  | .inf => "Infinity"
  | .ninf => "-Infinity"
  | .num q => if q < 0 then "-" ++ posRatToString (ratNeg q) else posRatToString q

/-- Natural-number string left-padded with zeros to width `w`. -/
def natPad (n w : ℕ) : String :=
  let s := toString n
  if s.length < w then String.mk (List.replicate (w - s.length) (digitChar 0)) ++ s else s

/-- `toFixed` for a nonnegative rational: round half-up at `f` decimal
places (ECMA-262: the closest integer `n` to `x·10^f`, larger on ties),
realised as the floor of `x·10^f + 1/2`. -/
def posRatToFixed (q : ℚ) (f : ℕ) : String :=
  let scaled : ℚ := mkRat (q.num * (10 ^ f : ℕ)) q.den
  let n := (mkRat (2 * scaled.num + scaled.den) (2 * scaled.den)).floor.toNat
  if f = 0 then toString n
  else toString (n / 10 ^ f) ++ "." ++ natPad (n % 10 ^ f) f

/-- `Number.prototype.toFixed` on the `JSNum` model (ECMA-262: NaN prints
`"NaN"`, magnitudes at least `10^21` fall back to `toString`, negative
values print the sign before rounding the magnitude). -/
def numToFixed : JSNum → ℕ → String
  | .nan, _ => "NaN"
  | .inf, _ => "Infinity"
  | .ninf, _ => "-Infinity"
  | .num q, f =>
    if ((10 ^ 21 : ℕ) : ℤ) * q.den ≤ q.num ∨ q.num ≤ -(((10 ^ 21 : ℕ) : ℤ) * q.den)
    then numToString (.num q)
    else if q < 0 then "-" ++ posRatToFixed (ratNeg q) f
    else posRatToFixed q f

mutual

/-- JavaScript `ToString` on the value model (arrays stringify as their
comma-joined elements, with `undefined` and `null` elements as the empty
string, per `Array.prototype.join`). -/
def jsValToString : JSVal → String
  | .undef => "undefined"
  | .null => "null"
  | .bool b => if b then "true" else "false"
  | .num n => numToString n
  | .str s => s
  | .arr l => jsArrToString l
termination_by structural v => v

/-- Comma-joined stringification of an array value (one join element:
`undefined` and `null` become the empty string). -/
def jsArrToString : List JSVal → String
  | [] => ""
  | v :: rest =>
    let e :=
      match v with
      | .undef => ""
      | .null => ""
      | w => jsValToString w
    if rest.isEmpty then e else e ++ "," ++ jsArrToString rest
termination_by structural l => l

end

/-- Stringification of one array element inside a join: `undefined` and
`null` become the empty string. -/
def jsElemToString : JSVal → String
  | .undef => ""
  | .null => ""
  | v => jsValToString v

/-- `Array.prototype.join` with an explicit separator (elements stringify
as in `jsElemToString`). -/
def jsJoinWith (sep : String) (l : List JSVal) : String :=
  String.intercalate sep (l.map jsElemToString)

/-- Digits taken greedily from the front of a character list, returned as
digit values together with the unconsumed remainder. -/
def takeDigits : List Char → List ℕ × List Char
  | [] => ([], [])
  | c :: cs =>
    if c.isDigit then
      let (ds, r) := takeDigits cs
      ((c.toNat - 48) :: ds, r)
    else ([], c :: cs)

/-- Value of a big-endian list of decimal digit values. -/
def digitsToNat (ds : List ℕ) : ℕ := ds.foldl (fun a d => a * 10 + d) 0

/-- Hexadecimal digit value, if the character is a hex digit. -/
def hexDigitVal (c : Char) : Option ℕ :=
  if c.isDigit then some (c.toNat - 48)
  else if 97 ≤ c.toNat ∧ c.toNat ≤ 102 then some (c.toNat - 87)
  else if 65 ≤ c.toNat ∧ c.toNat ≤ 70 then some (c.toNat - 55)
  else none

/-- Hexadecimal digits taken greedily from the front of a character list. -/
def takeHexDigits : List Char → List ℕ × List Char
  | [] => ([], [])
  | c :: cs =>
    match hexDigitVal c with
    | some d =>
      let (ds, r) := takeHexDigits cs
      (d :: ds, r)
    | none => ([], c :: cs)

/-- Unsigned decimal numeric literal: digits, optional fraction, optional
exponent; the whole input must be consumed.  Mirrors the ECMA-262
`StrUnsignedDecimalLiteral` grammar. -/
def parseUnsignedDec (cs : List Char) : Option ℚ :=
  let (ip, r1) := takeDigits cs
  let (fp, r2) :=
    match r1 with
    | c :: rest => if c = Char.ofNat 46 then takeDigits rest else ([], r1)
    | [] => ([], r1)
  if ip.isEmpty ∧ fp.isEmpty then none
  else
    let base : ℚ :=
      mkRat ((digitsToNat ip * 10 ^ fp.length + digitsToNat fp : ℕ) : ℤ) (10 ^ fp.length)
    match r2 with
    | [] => some base
    | c :: rest =>
      if c = Char.ofNat 101 ∨ c = Char.ofNat 69 then
        let (esgn, rest2) :=
          match rest with
          | d :: r => if d = Char.ofNat 43 then (true, r)
                      else if d = Char.ofNat 45 then (false, r)
                      else (true, rest)
          | [] => (true, rest)
        let (ed, r3) := takeDigits rest2
        if ed.isEmpty ∨ ¬ r3.isEmpty then none
        else if esgn then some (mkRat (base.num * ((10 ^ digitsToNat ed : ℕ) : ℤ)) base.den)
        else some (mkRat base.num (base.den * 10 ^ digitsToNat ed))
      else none

/-- Is the character one of the JavaScript `StrWhiteSpace` characters
(tab, line feed, vertical tab, form feed, carriage return, space,
no-break space, line and paragraph separators, byte order mark)? -/
def jsWhitespace (c : Char) : Bool :=
  c.toNat = 9 || c.toNat = 10 || c.toNat = 11 || c.toNat = 12 || c.toNat = 13 ||
  c.toNat = 32 || c.toNat = 160 || c.toNat = 8232 || c.toNat = 8233 || c.toNat = 65279

/-- Leading and trailing JavaScript whitespace stripped from a character
list. -/
def jsTrimChars (cs : List Char) : List Char :=
  ((cs.dropWhile jsWhitespace).reverse.dropWhile jsWhitespace).reverse

/-- ECMA-262 `ToNumber` on strings: trimmed whitespace, empty means zero,
optional sign with decimal literal or `Infinity`, or an unsigned
hexadecimal literal; anything else is NaN.  (The ES2015 binary and octal
literal forms are omitted; no string in this codebase uses them.) -/
def jsStringToNumber (s : String) : JSNum :=
  let cs0 := jsTrimChars s.data
  if cs0.isEmpty then .num 0
  else
    let cs := cs0
    match cs with
    | c0 :: c1 :: rest =>
      if c0 = Char.ofNat 48 ∧ (c1 = Char.ofNat 120 ∨ c1 = Char.ofNat 88) then
        let (hd, r) := takeHexDigits rest
        if hd.isEmpty ∨ ¬ r.isEmpty then .nan
        else .num (mkRat ((hd.foldl (fun a d => a * 16 + d) 0 : ℕ) : ℤ) 1)
      else
        let (neg, body) :=
          if c0 = Char.ofNat 43 then (false, c1 :: rest)
          else if c0 = Char.ofNat 45 then (true, c1 :: rest)
          else (false, cs)
        if body = "Infinity".data then (if neg then .ninf else .inf)
        else
          match parseUnsignedDec body with
          | some q => .num (if neg then ratNeg q else q)
          | none => .nan
    | cs1 =>
      match parseUnsignedDec cs1 with
      | some q => .num q
      | none => .nan

/-- ECMA-262 `ToNumber` on the value model.  An array converts through its
primitive (join) string, matching `ToPrimitive` followed by the string
conversion. -/
def toNumber : JSVal → JSNum
  | .undef => .nan
  | .null => .num 0
  | .bool b => .num (if b then 1 else 0)
  | .num n => n
  | .str s => jsStringToNumber s
  | .arr l => jsStringToNumber (jsArrToString l)

/-- The global `isNaN` predicate (coerces, then tests for NaN). -/
def jsIsNaN (v : JSVal) : Bool :=
  match toNumber v with
  | .nan => true
  | _ => false

/-- The global `isFinite` predicate (coerces, then tests finiteness). -/
def jsIsFinite (v : JSVal) : Bool :=
  match toNumber v with
  | .num _ => true
  | _ => false

/-- Addition on JavaScript numbers (NaN propagates, opposite infinities
give NaN). -/
def numAdd : JSNum → JSNum → JSNum
  | .nan, _ => .nan
  | _, .nan => .nan
  | .inf, .ninf => .nan
  | .ninf, .inf => .nan
  | .inf, _ => .inf
  | _, .inf => .inf
  | .ninf, _ => .ninf
  | _, .ninf => .ninf
  | .num a, .num b => .num (ratAdd a b)

/-- Division on JavaScript numbers: `0/0` is NaN, a nonzero finite value
divided by zero gives a signed infinity, and a finite value divided by an
infinity gives zero (the IEEE negative zero is collapsed onto zero). -/
def numDiv : JSNum → JSNum → JSNum
  | .nan, _ => .nan
  | _, .nan => .nan
  | .inf, .inf => .nan
  | .inf, .ninf => .nan
  | .ninf, .inf => .nan
  | .ninf, .ninf => .nan
  | .inf, .num q => if 0 ≤ q then .inf else .ninf
  | .ninf, .num q => if 0 ≤ q then .ninf else .inf
  | .num _, .inf => .num 0
  | .num _, .ninf => .num 0
  | .num a, .num b =>
    if b = 0 then (if a = 0 then .nan else if 0 < a then .inf else .ninf)
    else .num (ratDiv a b)

/-- Negation on JavaScript numbers (multiplication by `-1`). -/
def numNeg : JSNum → JSNum
  | .nan => .nan
  | .inf => .ninf
  | .ninf => .inf
  | .num q => .num (ratNeg q)

/-- `ToPrimitive` on the value model: an array becomes its join string,
every other value is already primitive. -/
def toPrimitive (v : JSVal) : JSVal :=
  match v with
  | .arr l => .str (jsArrToString l)
  | w => w

/-- Is the (primitive) value a string? -/
def isStrVal : JSVal → Bool
  | .str _ => true
  | _ => false

/-- The JavaScript `+` operator: after `ToPrimitive`, concatenation when
either side is a string, numeric addition otherwise. -/
def jsAdd (a b : JSVal) : JSVal :=
  let pa := toPrimitive a
  let pb := toPrimitive b
  if isStrVal pa || isStrVal pb then .str (jsValToString pa ++ jsValToString pb)
  else .num (numAdd (toNumber pa) (toNumber pb))

/-- The JavaScript `/` operator: both operands coerce with `ToNumber`. -/
def jsDiv (a b : JSVal) : JSNum := numDiv (toNumber a) (toNumber b)

/-- The JavaScript expression `v * -1` (coerces, then negates). -/
def jsMulNeg1 (v : JSVal) : JSVal := .num (numNeg (toNumber v))

/-- JavaScript truthiness of a value (arrays are always truthy). -/
def jsTruthy : JSVal → Bool
  | .undef => false
  | .null => false
  | .bool b => b
  | .num .nan => false
  | .num (.num q) => decide (q ≠ 0)
  | .num _ => true
  | .str s => !s.isEmpty
  | .arr _ => true

/-- `typeof v === "number"` on the value model (NaN and the infinities
are numbers). -/
def isNumberType : JSVal → Bool
  | .num _ => true
  | _ => false

/-- Strict equality of a value against a string literal. -/
def strictEqStr (v : JSVal) (s : String) : Bool :=
  match v with
  | .str t => t == s
  | _ => false

/-- `v.toFixed(f)`: defined on numbers, a `TypeError` (modelled as
`Except.error ()`) on every other value, which has no `toFixed` method. -/
def jsToFixed (v : JSVal) (f : ℕ) : Except Unit String :=
  match v with
  | .num n => .ok (numToFixed n f)
  | _ => .error ()

/-- `MetadataViewer.convertRational` (metadata-viewer.js:348-351): a value
that is not a two-element array yields `0`; otherwise the JavaScript
division `rational[0] / rational[1]` unless the denominator is strictly
equal to the number `0`, in which case `0`. -/
def convertRational (rational : JSVal) : JSNum :=
  match rational with
  | .arr [n, d] =>
    match d with
    | .num (.num q) => if q = 0 then .num 0 else numDiv (toNumber n) (toNumber d)
    | _ => numDiv (toNumber n) (toNumber d)
  | _ => .num 0

/-- `MetadataViewer.sanitizeNumber` (metadata-viewer.js:358-360):
`isNaN(num) || !isFinite(num) ? 0 : num`.  Note that a value that
coerces to a finite number (such as `null` or a numeric string) passes
through unchanged, it is not converted to a number. -/
def sanitizeNumber (v : JSVal) : JSVal :=
  if jsIsNaN v || !jsIsFinite v then .num (.num 0) else v

/-- The shared branch of `formatGPSCoordinate` and `convertGPSToDecimal`
(metadata-viewer.js:377-386 and 429-437): when the first component is of
number type the three components are used directly, otherwise each is
converted with `convertRational`. -/
def gpsRawComponents (c0 c1 c2 : JSVal) : JSVal × JSVal × JSVal :=
  if isNumberType c0 then (c0, c1, c2)
  else (.num (convertRational c0), .num (convertRational c1), .num (convertRational c2))

/-- The expression `degrees + (minutes / 60) + (seconds / 3600)`
(metadata-viewer.js:394 and 439) with JavaScript operator semantics. -/
def gpsDecimalOf (d m s : JSVal) : JSVal :=
  jsAdd (jsAdd d (.num (jsDiv m (.num (.num 60))))) (.num (jsDiv s (.num (.num 3600))))

/-- The sanitize-and-render tail of `formatGPSCoordinate`
(metadata-viewer.js:388-396) on already extracted components: sanitize
each, compute the decimal, and render the sexagesimal template followed
by the decimal form in parentheses to six places; a `toFixed` call
throws (`.error ()`) when its receiver is not a number, which happens
when `sanitizeNumber` passes a finite-coercing non-number through. -/
def formatDMS (d0 m0 s0 : JSVal) : Except Unit JSVal :=
  match jsToFixed (sanitizeNumber s0) 2 with
  | .error e => .error e
  | .ok sf =>
    match jsToFixed (gpsDecimalOf (sanitizeNumber d0) (sanitizeNumber m0)
        (sanitizeNumber s0)) 6 with
    | .error e => .error e
    | .ok df =>
      .ok (.str (jsValToString (sanitizeNumber d0) ++ "° " ++
        jsValToString (sanitizeNumber m0) ++ aposStr ++ " " ++
        sf ++ quoteStr ++ " (" ++ df ++ "°)"))

/-- `MetadataViewer.formatGPSCoordinate` (metadata-viewer.js:371-397).
A non-array or an array whose length is not 3 is returned unchanged.
Otherwise components are extracted (directly when the first component is
a number, via `convertRational` otherwise) and passed to `formatDMS`. -/
def formatGPSCoordinate (coord : JSVal) : Except Unit JSVal :=
  match coord with
  | .arr [c0, c1, c2] =>
    let (d0, m0, s0) := gpsRawComponents c0 c1 c2
    formatDMS d0 m0 s0
  | c => .ok c

/-- `MetadataViewer.convertGPSToDecimal` (metadata-viewer.js:425-447).
Returns `none` (null) unless the coordinate is a 3-element array;
otherwise the decimal expression with no sanitization, negated when the
reference is strictly the string `"S"` or `"W"`. -/
def convertGPSToDecimal (coord ref : JSVal) : Option JSVal :=
  match coord with
  | .arr [c0, c1, c2] =>
    let (d, m, s) := gpsRawComponents c0 c1 c2
    let dec := gpsDecimalOf d m s
    some (if strictEqStr ref "S" || strictEqStr ref "W" then jsMulNeg1 dec else dec)
  | _ => none

/-- The map-link template string of `addGPSMapLink`
(metadata-viewer.js:412-414), reproduced with its literal newlines and
indentation. -/
def mapLinkText (latS lonS latF lonF : String) : String :=
  "<a href=" ++ quoteStr ++ "https://www.google.com/maps?q=" ++ latS ++ "," ++ lonS ++
  quoteStr ++ " target=" ++ quoteStr ++ "_blank" ++ quoteStr ++ " rel=" ++ quoteStr ++
  "noopener noreferrer" ++ quoteStr ++ " style=" ++ quoteStr ++
  "color: #2563eb; text-decoration: none;" ++ quoteStr ++ ">\n                View on map (" ++
  latF ++ ", " ++ lonF ++ ")\n            </a>"

/-- `MetadataViewer.addGPSMapLink` (metadata-viewer.js:407-417): converts
both coordinates to decimal, and when neither is null produces the link
string (whose construction calls `toFixed(6)` on both decimals). -/
def addGPSMapLink (latitude longitude latRef lonRef : JSVal) : Except Unit (Option String) :=
  match convertGPSToDecimal latitude latRef, convertGPSToDecimal longitude lonRef with
  | some lat, some lon =>
    match jsToFixed lat 6, jsToFixed lon 6 with
    | .ok lf, .ok of2 => .ok (some (mapLinkText (jsValToString lat) (jsValToString lon) lf of2))
    | .error e, _ => .error e
    | _, .error e => .error e
  | _, _ => .ok none

/-- Property read `v[i]` as used by the legacy formatter: throws on
`undefined` and `null`, yields the element (or `undefined`) on arrays,
a one-character string on strings, `undefined` on other primitives. -/
def jsIdx (v : JSVal) (i : ℕ) : Except Unit JSVal :=
  match v with
  | .undef => .error ()
  | .null => .error ()
  | .arr l => .ok (l.getD i .undef)
  | .str s => .ok (((s.data.get? i).map (fun c => JSVal.str (String.singleton c))).getD .undef)
  | _ => .ok (.undef)

/-- The legacy `formatGPSCoordinate` of the unnamed viewer variant
(src/unnamed/part_001:195-203): same 3-element guard, but each component
is divided directly as `coord[i][0] / coord[i][1]` with no zero-denominator
guard and no sanitization, and the output has no decimal form. -/
def part001_formatGPSCoordinate (coord : JSVal) : Except Unit JSVal :=
  match coord with
  | .arr [c0, c1, c2] =>
    match jsIdx c0 0, jsIdx c0 1 with
    | .ok n0, .ok d0 =>
      let degrees := jsDiv n0 d0
      match jsIdx c1 0, jsIdx c1 1 with
      | .ok n1, .ok d1 =>
        let minutes := jsDiv n1 d1
        match jsIdx c2 0, jsIdx c2 1 with
        | .ok n2, .ok d2 =>
          let seconds := jsDiv n2 d2
          .ok (.str (numToString degrees ++ "° " ++ numToString minutes ++ aposStr ++ " " ++
            numToFixed seconds 2 ++ quoteStr))
        | _, _ => .error ()
      | _, _ => .error ()
    | _, _ => .error ()
  | c => .ok c

/-- Is the value a 3-element array (the guard shared by both formatter
variants and the decimal converter)? -/
def isTriple : JSVal → Bool
  | .arr [_, _, _] => true
  | _ => false

/-- The 0th-IFD entries of the static tag-name table
(metadata-viewer.js:223-235). -/
def tag0th : ℕ → Option String
  | 270 => some "Image Description"
  | 271 => some "Camera Make"
  | 272 => some "Camera Model"
  | 274 => some "Orientation"
  | 282 => some "X Resolution"
  | 283 => some "Y Resolution"
  | 296 => some "Resolution Unit"
  | 305 => some "Software"
  | 306 => some "Date/Time"
  | 315 => some "Artist/Author"
  | 33432 => some "Copyright"
  | _ => none

/-- The Exif-IFD entries of the static tag-name table
(metadata-viewer.js:237-275). -/
def tagExif : ℕ → Option String
  | 33434 => some "Exposure Time"
  | 33437 => some "F-Number"
  | 34850 => some "Exposure Program"
  | 34855 => some "ISO Speed"
  | 36864 => some "EXIF Version"
  | 36867 => some "Date/Time Original"
  | 36868 => some "Date/Time Digitized"
  | 37377 => some "Shutter Speed (APEX)"
  | 37378 => some "Aperture"
  | 37380 => some "Exposure Bias"
  | 37381 => some "Max Aperture"
  | 37383 => some "Metering Mode"
  | 37385 => some "Flash"
  | 37386 => some "Focal Length"
  | 37520 => some "Subsec Time"
  | 37521 => some "Subsec Time Original"
  | 37522 => some "Subsec Time Digitized"
  | 40960 => some "FlashPix Version"
  | 40961 => some "Color Space"
  | 40962 => some "Pixel X Dimension"
  | 40963 => some "Pixel Y Dimension"
  | 41486 => some "Focal Plane X Resolution"
  | 41487 => some "Focal Plane Y Resolution"
  | 41495 => some "Sensing Method"
  | 41728 => some "File Source"
  | 41729 => some "Scene Type"
  | 41985 => some "Custom Rendered"
  | 41986 => some "Exposure Mode"
  | 41987 => some "White Balance"
  | 41988 => some "Digital Zoom Ratio"
  | 41989 => some "Focal Length (35mm)"
  | 41990 => some "Scene Capture Type"
  | 41991 => some "Gain Control"
  | 41992 => some "Contrast"
  | 41993 => some "Saturation"
  | 41994 => some "Sharpness"
  | 42016 => some "Image Unique ID"
  | _ => none

/-- The GPS-IFD entries of the static tag-name table
(metadata-viewer.js:277-288). -/
def tagGPS : ℕ → Option String
  | 0 => some "GPS Version"
  | 1 => some "GPS Latitude Ref"
  | 2 => some "GPS Latitude"
  | 3 => some "GPS Longitude Ref"
  | 4 => some "GPS Longitude"
  | 5 => some "GPS Altitude Ref"
  | 6 => some "GPS Altitude"
  | 7 => some "GPS Timestamp"
  | 18 => some "GPS Map Datum"
  | 29 => some "GPS Date"
  | _ => none

/-- The display name of a tag: the table entry, or the fallback
`"<ifd> Tag <id>"` (metadata-viewer.js:299). -/
def tagDisplayName (ifdName : String) (table : ℕ → Option String) (t : ℕ) : String :=
  (table t).getD (ifdName ++ " Tag " ++ toString t)

/-- The key of the synthetic map-link field (metadata-viewer.js:336; the
source file stores the pin emoji in a mangled encoding — the code point
used here is the pin emoji of the original text). -/
def locationKey : String := String.singleton (Char.ofNat 128205) ++ " Location on Map"

/-- Assignment `metadata[key] = v` on the ordered field list: overwrite in
place when the key is present, append otherwise (JavaScript object
assignment keeps the original insertion position of an existing key). -/
def setKey (l : List (String × JSVal)) (k : String) (v : JSVal) : List (String × JSVal) :=
  if l.any (fun p => p.1 == k) then l.map (fun p => if p.1 == k then (k, v) else p)
  else l ++ [(k, v)]

/-- Number of fields of the ordered field list carrying a given key. -/
def countKey (k : String) (l : List (String × JSVal)) : ℕ :=
  l.countP (fun p => p.1 == k)

/-- The four mutable capture variables of `parseExifData`
(metadata-viewer.js:292): raw GPS latitude, longitude and their
references, all initialised to null. -/
structure GpsCap where
  lat : JSVal
  lon : JSVal
  latRef : JSVal
  lonRef : JSVal

/-- The capture step of the GPS branch (metadata-viewer.js:303-308):
tags 2, 4, 1 and 3 store their raw value. -/
def capGPS (t : ℕ) (v : JSVal) (c : GpsCap) : GpsCap :=
  let c := if t == 2 then { c with lat := v } else c
  let c := if t == 4 then { c with lon := v } else c
  let c := if t == 1 then { c with latRef := v } else c
  if t == 3 then { c with lonRef := v } else c

/-- Value formatting of one tag (metadata-viewer.js:311-322): GPS tags 2
and 4 with array values go through `formatGPSCoordinate`; other arrays
join with a comma-space; `null` (the only remaining value of type
object) serialises as the JSON string `"null"`; everything else is kept
as is. -/
def formatTagValue (isGPS : Bool) (t : ℕ) (v : JSVal) : Except Unit JSVal :=
  match v with
  | .arr l =>
    if isGPS && (t == 2 || t == 4) then formatGPSCoordinate (.arr l)
    else .ok (.str (jsJoinWith ", " l))
  | .null => .ok (.str "null")
  | w => .ok w

/-- Is the formatted value dropped by the filter
`value !== undefined && value !== null && value !== ''`
(metadata-viewer.js:325)? -/
def dropVal : JSVal → Bool
  | .undef => true
  | .null => true
  | .str s => s.isEmpty
  | _ => false

/-- One directory loop of `parseExifData` (metadata-viewer.js:297-328):
for each tag in enumeration order, resolve the display name, capture GPS
values when in the GPS directory, format the value (which can throw),
and store it unless it is undefined, null or empty. -/
def processTags (ifdName : String) (table : ℕ → Option String) (isGPS : Bool) :
    List (ℕ × JSVal) → List (String × JSVal) → GpsCap →
    Except Unit (List (String × JSVal) × GpsCap)
  | [], meta, cap => .ok (meta, cap)
  | (t, v) :: rest, meta, cap =>
    let name := tagDisplayName ifdName table t
    let cap1 := if isGPS then capGPS t v cap else cap
    match formatTagValue isGPS t v with
    | .error e => .error e
    | .ok v1 =>
      let meta1 := if dropVal v1 then meta else setKey meta name v1
      processTags ifdName table isGPS rest meta1 cap1

/-- A parsed EXIF object as consumed by `parseExifData`: the three
directories the tag table iterates over, each absent or a tag list in
JavaScript enumeration order (ascending numeric keys). -/
structure ExifObj where
  zeroth : Option (List (ℕ × JSVal))
  exifIFD : Option (List (ℕ × JSVal))
  gps : Option (List (ℕ × JSVal))

/-- One directory pass: a missing directory is skipped
(metadata-viewer.js:296). -/
def runIFD (ifdName : String) (table : ℕ → Option String) (isGPS : Bool)
    (dict : Option (List (ℕ × JSVal))) (meta : List (String × JSVal)) (cap : GpsCap) :
    Except Unit (List (String × JSVal) × GpsCap) :=
  match dict with
  | none => .ok (meta, cap)
  | some l => processTags ifdName table isGPS l meta cap

/-- `MetadataViewer.parseExifData` (metadata-viewer.js:217-341): the three
directory passes in table order (0th, Exif, GPS), followed by the
map-link step — when the captured latitude and longitude are both truthy
and `addGPSMapLink` yields a link, one synthetic location field is
assigned. -/
def parseExifData (obj : ExifObj) : Except Unit (List (String × JSVal)) :=
  match runIFD "0th" tag0th false obj.zeroth [] ⟨.null, .null, .null, .null⟩ with
  | .error e => .error e
  | .ok (m1, c1) =>
    match runIFD "Exif" tagExif false obj.exifIFD m1 c1 with
    | .error e => .error e
    | .ok (m2, c2) =>
      match runIFD "GPS" tagGPS true obj.gps m2 c2 with
      | .error e => .error e
      | .ok (m3, c3) =>
        if jsTruthy c3.lat && jsTruthy c3.lon then
          match addGPSMapLink c3.lat c3.lon c3.latRef c3.lonRef with
          | .error e => .error e
          | .ok (some link) => .ok (setKey m3 locationKey (.str link))
          | .ok none => .ok m3
        else .ok m3

/-- The component extraction written in the specification of
`formatCoordinate`: components are used directly only when all three are
plain numbers, otherwise every component is treated as a rational pair.
(The code, by contrast, branches on the first component alone, see
`gpsRawComponents`.) -/
def gpsClaimComponents (c0 c1 c2 : JSVal) : JSVal × JSVal × JSVal :=
  if isNumberType c0 && isNumberType c1 && isNumberType c2 then (c0, c1, c2)
  else (.num (convertRational c0), .num (convertRational c1), .num (convertRational c2))

/-- `formatCoordinate` as worded by the specification: identical to
`formatGPSCoordinate` except that the direct branch requires all three
components to be plain numbers. -/
def formatCoordinate_claim (coord : JSVal) : Except Unit JSVal :=
  match coord with
  | .arr [c0, c1, c2] =>
    let (d0, m0, s0) := gpsClaimComponents c0 c1 c2
    formatDMS d0 m0 s0
  | c => .ok c

/-- A selected file as seen by the two `handleFileSelection` paths. -/
structure JFile where
  name : String
  type : String
  size : ℕ
deriving DecidableEq

/-- `String.prototype.toLowerCase` on the ASCII range (sufficient for
MIME type strings). -/
def jsToLowerCase (s : String) : String :=
  String.mk (s.data.map (fun c =>
    if 65 ≤ c.toNat && c.toNat ≤ 90 then Char.ofNat (c.toNat + 32) else c))

/-- `MetadataViewer.ACCEPTED_TYPES` (metadata-viewer.js:11). -/
def ACCEPTED_TYPES : List String := ["image/jpeg", "image/jpg", "image/png"]

/-- `MetadataViewer.MAX_FILE_SIZE` (metadata-viewer.js:10): 50 MB. -/
def MAX_FILE_SIZE : ℕ := 50 * 1024 * 1024

/-- Outcome of a file-selection handler: no file (early return), a
rejection notification (type or size) issued before any processing, or
the start of processing of the file. -/
inductive SelectionOutcome where
  | ignored : SelectionOutcome
  | rejectedType : SelectionOutcome
  | rejectedSize : SelectionOutcome
  | processed (f : JFile) : SelectionOutcome
deriving DecidableEq

/-- `MetadataViewer.handleFileSelection` (metadata-viewer.js:57-97): a
missing file is ignored; a MIME type whose lowercase form is not
accepted is rejected with a notification; an oversized file is rejected
with a notification; otherwise processing starts. -/
def viewerHandleFileSelection (file : Option JFile) : SelectionOutcome :=
  match file with
  | none => .ignored
  | some f =>
    if !(ACCEPTED_TYPES.contains (jsToLowerCase f.type)) then .rejectedType
    else if f.size > MAX_FILE_SIZE then .rejectedSize
    else .processed f

/-- `MetadataRemover.handleFileSelection` (metadata-remover.js:27-38): a
missing file is ignored; any present file immediately becomes the
current file and is analysed — there is no type or size validation on
this path. -/
def removerHandleFileSelection (file : Option JFile) : SelectionOutcome :=
  match file with
  | none => .ignored
  | some f => .processed f

/-- A piexif result object as iterated by `verifyCleanedFile`: the five
tag directories plus the thumbnail entry (a string or null, never a
directory). -/
structure PiexifObj where
  zeroth : Option (List (ℕ × JSVal))
  exifIFD : Option (List (ℕ × JSVal))
  gps : Option (List (ℕ × JSVal))
  interop : Option (List (ℕ × JSVal))
  firstIFD : Option (List (ℕ × JSVal))
  thumbnail : Option String

/-- Key count of one directory in the remaining-metadata loop
(metadata-remover.js:219-223): an absent directory is falsy and
contributes nothing. -/
def dirKeyCount : Option (List (ℕ × JSVal)) → ℕ
  | none => 0
  | some l => l.length

/-- The thumbnail entry contributes nothing to the count: a string fails
the `typeof === "object"` test and null fails the truthiness test. -/
def thumbnailKeyCount (_ : Option String) : ℕ := 0

/-- The remaining-metadata count over a decoded piexif object. -/
def countRemaining (p : PiexifObj) : ℕ :=
  dirKeyCount p.zeroth + dirKeyCount p.exifIFD + dirKeyCount p.gps +
  dirKeyCount p.interop + dirKeyCount p.firstIFD + thumbnailKeyCount p.thumbnail

/-- Settlement of a JavaScript promise that reports a field count. -/
inductive PromiseSettle where
  | resolve (n : ℕ) : PromiseSettle
  | reject : PromiseSettle
deriving DecidableEq

/-- `MetadataRemover.verifyCleanedFile` (metadata-remover.js:208-238) as
a function of the decode outcome of the cleaned bytes: on success the
remaining fields are counted and reported via `displayResults`; a decode
failure is caught and reported as zero remaining fields; the promise
always resolves (the executor never calls reject). -/
def verifyCleanedFile (decode : Except Unit PiexifObj) : PromiseSettle :=
  .resolve (match decode with
    | .error _ => 0
    | .ok p => countRemaining p)

/-- Sanitization on the number model: NaN and the infinities map to 0,
finite values are unchanged (the numeric content of `sanitizeNumber` on
number-typed values). -/
def sanNum : JSNum → JSNum
  | .num q => .num q
  | _ => .num 0

theorem ratAdd_eq (a b : ℚ) : ratAdd a b = a + b := (Rat.add_def' a b).symm

theorem ratMul_eq (a b : ℚ) : ratMul a b = a * b := by
  rw [ratMul, Rat.mul_def, Rat.normalize_eq_mkRat]

theorem ratNeg_eq (a : ℚ) : ratNeg a = -a := by
  rw [ratNeg, show -a.num = (-a).num from (Rat.neg_num a).symm,
    show a.den = (-a).den from (Rat.neg_den a).symm, Rat.mkRat_self]

theorem ratDiv_eq (a b : ℚ) (hb : b ≠ 0) : ratDiv a b = a / b := by
  have hbnum : b.num ≠ 0 := Rat.num_ne_zero.mpr hb
  have hden : (a.den : ℤ) ≠ 0 := Int.ofNat_ne_zero.mpr a.den_nz
  rw [ratDiv, Rat.div_def, Rat.inv_def,
    show a * Rat.divInt b.den b.num = Rat.divInt a.num a.den * Rat.divInt b.den b.num from by
      rw [Rat.divInt_self],
    Rat.divInt_mul_divInt _ _ hden hbnum]

theorem sanitizeNumber_num (n : JSNum) : sanitizeNumber (.num n) = .num (sanNum n) := by
  cases n <;> rfl

theorem sanNum_idem (n : JSNum) : sanNum (sanNum n) = sanNum n := by
  cases n <;> rfl

/-- C1 counterexample.  The claim covers the rational-to-decimal
conversion of the legacy formatter (src/unnamed/part_001:195-203) as
well, but there the pair `[0, 0]` divides to NaN: the formatted output
of `[[0,1],[0,1],[0,0]]` contains `NaN` where the claim requires the
zero-denominator conversion to yield `0` (which would print `0.00`). -/
theorem c1_counterexample :
    part001_formatGPSCoordinate (.arr [.arr [.num (.num 0), .num (.num 1)],
      .arr [.num (.num 0), .num (.num 1)], .arr [.num (.num 0), .num (.num 0)]]) =
      .ok (.str ("0° 0" ++ aposStr ++ " NaN" ++ quoteStr)) ∧
    ("NaN".data <:+: ("0° 0" ++ aposStr ++ " NaN" ++ quoteStr).data) ∧
    ("0° 0" ++ aposStr ++ " NaN" ++ quoteStr) ≠ ("0° 0" ++ aposStr ++ " 0.00" ++ quoteStr) := by
  refine ⟨rfl, by decide, by decide⟩

/-- C1 amended: in metadata-viewer.js, `convertRational` — the
rational-to-decimal conversion used by both `formatGPSCoordinate` and
`convertGPSToDecimal` — maps every rational pair with denominator the
number `0` to `0`, never to NaN or an infinity; the legacy formatter of
part_001 divides directly and is not covered by this guarantee. -/
theorem c1_zero_denominator (n : JSVal) :
    convertRational (.arr [n, .num (.num 0)]) = .num 0 := by
  simp [convertRational]

/-- C1 witness: the zero-denominator guard at a concrete numerator. -/
theorem c1_zero_denominator_witness :
    convertRational (.arr [.num (.num 7), .num (.num 0)]) = .num 0 :=
  c1_zero_denominator (.num (.num 7))

/-- C2 counterexample: `convertGPSToDecimal` applies no sanitization — a
NaN degrees component propagates to a NaN decimal instead of being
replaced by `0`. -/
theorem c2_counterexample :
    convertGPSToDecimal (.arr [.num .nan, .num (.num 0), .num (.num 0)]) (.str "N") =
      some (.num .nan) ∧ JSNum.nan ≠ JSNum.num 0 := by
  exact ⟨rfl, by decide⟩

/-- C2 amended: NaN/Infinity components of a number-typed coordinate
triple are replaced by `0` by the sexagesimal formatter
(`formatGPSCoordinate`, via `sanitizeNumber`) — the formatted output
equals the output on the sanitized triple — but the decimal converter
(`convertGPSToDecimal`) applies no sanitization (see the
counterexample). -/
theorem c2_formatter_sanitizes (d m s : JSNum) :
    formatGPSCoordinate (.arr [.num d, .num m, .num s]) =
    formatGPSCoordinate (.arr [.num (sanNum d), .num (sanNum m), .num (sanNum s)]) := by
  simp only [formatGPSCoordinate, gpsRawComponents, isNumberType, if_pos, formatDMS,
    sanitizeNumber_num, sanNum_idem]

/-- C3: `convertGPSToDecimal` returns null (`none`) for every argument
that is not a 3-element coordinate; on plain-number triples it returns
`degrees + minutes/60 + seconds/3600`, negated exactly when the
reference is the string `"S"` or `"W"` and unchanged otherwise (in
particular for `"N"` and `"E"`). -/
theorem c3_toDecimal :
    (∀ (coord ref : JSVal), isTriple coord = false → convertGPSToDecimal coord ref = none) ∧
    (∀ (d m s : ℚ) (ref : JSVal),
      convertGPSToDecimal (.arr [.num (.num d), .num (.num m), .num (.num s)]) ref =
        some (if strictEqStr ref "S" || strictEqStr ref "W"
              then .num (.num (-(d + m / 60 + s / 3600)))
              else .num (.num (d + m / 60 + s / 3600)))) := by
  constructor
  · intro coord ref h
    cases coord with
    | arr l =>
      rcases l with _ | ⟨a, _ | ⟨b, _ | ⟨c, _ | rest⟩⟩⟩ <;> first
      | rfl
      | simp [isTriple] at h
    | undef => rfl
    | null => rfl
    | bool b => rfl
    | num n => rfl
    | str s => rfl
  · intro d m s ref
    have h60 : (60 : ℚ) ≠ 0 := by norm_num
    have h3600 : (3600 : ℚ) ≠ 0 := by norm_num
    simp only [convertGPSToDecimal, gpsRawComponents, isNumberType, if_pos, gpsDecimalOf,
      jsAdd, toPrimitive, isStrVal, toNumber, jsDiv, numDiv, numAdd, jsMulNeg1, numNeg]
    simp only [if_neg h60, if_neg h3600, ratDiv_eq _ _ h60, ratDiv_eq _ _ h3600, ratAdd_eq,
      ratNeg_eq]
    simp

/-- C3 witness: null for a non-triple, and the signed decimals at a
concrete plain-number triple for all four hemisphere references. -/
theorem c3_toDecimal_witness :
    convertGPSToDecimal (.str "x") (.str "N") = none ∧
    convertGPSToDecimal (.arr [.num (.num 40), .num (.num 30), .num (.num 36)]) (.str "S") =
      some (.num (.num (-(mkRat 4051 100)))) := by
  constructor
  · exact c3_toDecimal.1 (.str "x") (.str "N") rfl
  · have h := c3_toDecimal.2 40 30 36 (.str "S")
    rw [h]
    norm_num [strictEqStr, Rat.mkRat_eq_div]

/-- C4 counterexample.  On `[40, [26,1], [4630,100]]` (first component a
plain number, the others rational pairs) the code takes the direct
branch — the rational pairs coerce to NaN and are sanitized to zero,
giving 40° 0 minutes — while the specified all-three-numbers rule would
convert every component as a rational pair, giving 0° 26 minutes. -/
theorem c4_counterexample :
    formatGPSCoordinate (.arr [.num (.num 40), .arr [.num (.num 26), .num (.num 1)],
        .arr [.num (.num 4630), .num (.num 100)]]) =
      .ok (.str ("40° 0" ++ aposStr ++ " 0.00" ++ quoteStr ++ " (40.000000°)")) ∧
    formatCoordinate_claim (.arr [.num (.num 40), .arr [.num (.num 26), .num (.num 1)],
        .arr [.num (.num 4630), .num (.num 100)]]) =
      .ok (.str ("0° 26" ++ aposStr ++ " 46.30" ++ quoteStr ++ " (0.446194°)")) ∧
    ("40° 0" ++ aposStr ++ " 0.00" ++ quoteStr ++ " (40.000000°)") ≠
      ("0° 26" ++ aposStr ++ " 46.30" ++ quoteStr ++ " (0.446194°)") := by
  exact ⟨rfl, rfl, by decide⟩

/-- C4 amended: a 3-element triple is used directly as plain
degrees/minutes/seconds exactly when its FIRST component is a plain
number (the remaining components are then taken as they are and
sanitized); otherwise every component is treated as a rational pair and
converted by `convertRational`. -/
theorem c4_first_component_branch (c0 c1 c2 : JSVal) :
    (isNumberType c0 = true →
      formatGPSCoordinate (.arr [c0, c1, c2]) = formatDMS c0 c1 c2) ∧
    (isNumberType c0 = false →
      formatGPSCoordinate (.arr [c0, c1, c2]) =
        formatDMS (.num (convertRational c0)) (.num (convertRational c1))
          (.num (convertRational c2))) := by
  constructor
  · intro h
    simp [formatGPSCoordinate, gpsRawComponents, h]
  · intro h
    simp [formatGPSCoordinate, gpsRawComponents, h]

/-- C4 witness: the direct branch at a concrete number-first triple. -/
theorem c4_first_component_branch_witness :
    formatGPSCoordinate (.arr [.num (.num 1), .str "2", .num (.num 3)]) =
      formatDMS (.num (.num 1)) (.str "2") (.num (.num 3)) :=
  (c4_first_component_branch (.num (.num 1)) (.str "2") (.num (.num 3))).1 rfl

/-- C5 counterexample: on `[[40,1],[26,1],[4630,100]]` the formatter
yields degrees 40, minutes 26, seconds 46.30 but decimal `40.446194`
(the exact value of 40 + 26/60 + 46.3/3600), and the output does NOT
contain the claimed decimal form `(40.446389°)`. -/
theorem c5_counterexample :
    formatGPSCoordinate (.arr [.arr [.num (.num 40), .num (.num 1)],
        .arr [.num (.num 26), .num (.num 1)], .arr [.num (.num 4630), .num (.num 100)]]) =
      .ok (.str ("40° 26" ++ aposStr ++ " 46.30" ++ quoteStr ++ " (40.446194°)")) ∧
    ¬ ("(40.446389°)".data <:+:
        ("40° 26" ++ aposStr ++ " 46.30" ++ quoteStr ++ " (40.446194°)").data) := by
  exact ⟨rfl, by decide⟩

/-- C5 amended: on `[[40,1],[26,1],[4630,100]]` the formatter yields
degrees 40, minutes 26, seconds 46.30, decimal 40.446194, and the output
string contains both the sexagesimal form and the decimal form
`(40.446194°)` to six places. -/
theorem c5_example_output :
    formatGPSCoordinate (.arr [.arr [.num (.num 40), .num (.num 1)],
        .arr [.num (.num 26), .num (.num 1)], .arr [.num (.num 4630), .num (.num 100)]]) =
      .ok (.str ("40° 26" ++ aposStr ++ " 46.30" ++ quoteStr ++ " (40.446194°)")) ∧
    (("40° 26" ++ aposStr ++ " 46.30" ++ quoteStr).data <:+:
      ("40° 26" ++ aposStr ++ " 46.30" ++ quoteStr ++ " (40.446194°)").data) ∧
    ("(40.446194°)".data <:+:
      ("40° 26" ++ aposStr ++ " 46.30" ++ quoteStr ++ " (40.446194°)").data) := by
  exact ⟨rfl, by decide, by decide⟩

/-- C6: the totality claim fails on the code.  On the triple
`[1, 2, null]` the first component is a plain number, so `null` becomes
the seconds component; `sanitizeNumber` passes `null` through (it
coerces to the finite number 0), and `null.toFixed(2)` then throws a
TypeError — modelled as `Except.error ()` — instead of degrading to
zeroed output. -/
theorem c6_throws_on_null_seconds :
    formatGPSCoordinate (.arr [.num (.num 1), .num (.num 2), .null]) = .error () ∧
    sanitizeNumber .null = .null ∧
    jsToFixed .null 2 = .error () := ⟨rfl, rfl, rfl⟩

/-- C8 counterexample: the remover file-selection path performs no
validation — a file that is both of an unaccepted MIME type and
oversized is processed rather than rejected. -/
theorem c8_counterexample :
    removerHandleFileSelection (some ⟨"a.txt", "text/plain", 60 * 1024 * 1024⟩) =
      .processed ⟨"a.txt", "text/plain", 60 * 1024 * 1024⟩ ∧
    SelectionOutcome.processed ⟨"a.txt", "text/plain", 60 * 1024 * 1024⟩ ≠ .rejectedType ∧
    SelectionOutcome.processed ⟨"a.txt", "text/plain", 60 * 1024 * 1024⟩ ≠ .rejectedSize := by
  exact ⟨rfl, by decide, by decide⟩

/-- C8 amended: on the viewer path a file whose lowercased MIME type is
outside the accepted set is rejected with a type notification before any
processing, and an accepted-type file larger than 50 MB is rejected with
a size notification; the remover path performs no validation and
processes every selected file. -/
theorem c8_validation :
    (∀ f : JFile, ACCEPTED_TYPES.contains (jsToLowerCase f.type) = false →
      viewerHandleFileSelection (some f) = .rejectedType) ∧
    (∀ f : JFile, ACCEPTED_TYPES.contains (jsToLowerCase f.type) = true → f.size > MAX_FILE_SIZE →
      viewerHandleFileSelection (some f) = .rejectedSize) ∧
    (∀ f : JFile, removerHandleFileSelection (some f) = .processed f) := by
  refine ⟨fun f h => ?_, fun f h hs => ?_, fun f => rfl⟩
  · simp only [viewerHandleFileSelection, h, Bool.not_false, if_true]
  · simp only [viewerHandleFileSelection, h, Bool.not_true, Bool.false_eq_true, if_false,
      gt_iff_lt, hs, if_true]

/-- C8 witness: a wrong-type file and an oversized JPEG on the viewer
path, at concrete inputs. -/
theorem c8_validation_witness :
    viewerHandleFileSelection (some ⟨"a.txt", "text/plain", 1⟩) = .rejectedType ∧
    viewerHandleFileSelection (some ⟨"b.jpg", "image/jpeg", 52428801⟩) = .rejectedSize :=
  ⟨c8_validation.1 ⟨"a.txt", "text/plain", 1⟩ (by decide),
   c8_validation.2.1 ⟨"b.jpg", "image/jpeg", 52428801⟩ (by decide) (by decide)⟩

/-- C9: the post-clean verification never rejects; a decode failure of
the cleaned bytes reports a remaining-field count of 0, identical to a
successful decode with zero remaining fields; a successful decode
reports the counted fields. -/
theorem c9_verify_decode_failure :
    (∀ d : Except Unit PiexifObj, verifyCleanedFile d ≠ .reject) ∧
    verifyCleanedFile (.error ()) = .resolve 0 ∧
    (∀ p : PiexifObj, countRemaining p = 0 →
      verifyCleanedFile (.ok p) = verifyCleanedFile (.error ())) ∧
    (∀ p : PiexifObj, verifyCleanedFile (.ok p) = .resolve (countRemaining p)) := by
  refine ⟨fun d h => by cases d <;> exact PromiseSettle.noConfusion h, rfl,
    fun p hp => ?_, fun p => rfl⟩
  simp [verifyCleanedFile, hp]

/-- C9 witness: the decode-failure ⇔ zero-fields equivalence at the
empty piexif object. -/
theorem c9_verify_decode_failure_witness :
    verifyCleanedFile (.ok ⟨none, none, none, none, none, none⟩) =
      verifyCleanedFile (.error ()) :=
  c9_verify_decode_failure.2.2.1 ⟨none, none, none, none, none, none⟩ rfl

/-- C10: both formatter variants return every argument that is not a
3-element array unchanged (possibly a non-string value), and a
non-triple array value of a GPS latitude/longitude tag survives the
interpreter value-formatting step as itself, so it reaches the display
mapping as is. -/
theorem c10_passthrough (v : JSVal) (h : isTriple v = false) :
    formatGPSCoordinate v = .ok v ∧
    part001_formatGPSCoordinate v = .ok v ∧
    (∀ l : List JSVal, v = .arr l → formatTagValue true 2 v = .ok v ∧ dropVal v = false) := by
  cases v with
  | arr l =>
    rcases l with _ | ⟨a, _ | ⟨b, _ | ⟨c, _ | rest⟩⟩⟩
    · exact ⟨rfl, rfl, fun l hl => by cases hl; exact ⟨rfl, rfl⟩⟩
    · exact ⟨rfl, rfl, fun l hl => by cases hl; exact ⟨rfl, rfl⟩⟩
    · exact ⟨rfl, rfl, fun l hl => by cases hl; exact ⟨rfl, rfl⟩⟩
    · simp [isTriple] at h
    · exact ⟨rfl, rfl, fun l hl => by cases hl; exact ⟨rfl, rfl⟩⟩
  | undef => exact ⟨rfl, rfl, fun l hl => by cases hl⟩
  | null => exact ⟨rfl, rfl, fun l hl => by cases hl⟩
  | bool b => exact ⟨rfl, rfl, fun l hl => by cases hl⟩
  | num n => exact ⟨rfl, rfl, fun l hl => by cases hl⟩
  | str s => exact ⟨rfl, rfl, fun l hl => by cases hl⟩

/-- C10 witness: a one-element array (a malformed GPS tag value) passes
through both formatters and the value-formatting step unchanged. -/
theorem c10_passthrough_witness :
    formatGPSCoordinate (.arr [.num (.num 5)]) = .ok (.arr [.num (.num 5)]) ∧
    formatTagValue true 2 (.arr [.num (.num 5)]) = .ok (.arr [.num (.num 5)]) := by
  have h := c10_passthrough (.arr [.num (.num 5)]) rfl
  exact ⟨h.1, (h.2.2 [.num (.num 5)] rfl).1⟩

theorem countKey_setKey_ne (l : List (String × JSVal)) (k k2 : String) (v : JSVal)
    (h : (k2 == k) = false) : countKey k (setKey l k2 v) = countKey k l := by
  unfold setKey countKey
  split
  · rw [List.countP_map]
    apply List.countP_congr
    intro a _
    by_cases ha : (a.1 == k2) = true
    · simp only [Function.comp]
      rw [if_pos ha]
      have : a.1 = k2 := eq_of_beq ha
      simp [this, h]
    · simp only [Function.comp]
      rw [if_neg ha]
  · rw [List.countP_append]
    simp [h]

theorem countKey_setKey_new (l : List (String × JSVal)) (k : String) (v : JSVal)
    (h : countKey k l = 0) : countKey k (setKey l k v) = 1 := by
  unfold setKey
  have hany : (l.any (fun p => p.1 == k)) = false := by
    rw [Bool.eq_false_iff]
    intro hc
    obtain ⟨p, hp, hpk⟩ := List.any_eq_true.mp hc
    exact (List.countP_eq_zero.mp h p hp) hpk
  rw [if_neg (by simp [hany])]
  show List.countP (fun p => p.1 == k) (l ++ [(k, v)]) = 1
  rw [List.countP_append]
  have h2 : List.countP (fun p => p.1 == k) l = 0 := h
  rw [h2]
  simp

theorem mem_setKey_self (l : List (String × JSVal)) (k : String) (v : JSVal) :
    (k, v) ∈ setKey l k v := by
  unfold setKey
  split
  · rename_i h
    obtain ⟨p, hp, hpk⟩ := List.any_eq_true.mp h
    have := List.mem_map_of_mem (fun p => if p.1 == k then (k, v) else p) hp
    simpa [hpk] using this
  · exact List.mem_append_right _ (List.mem_singleton.mpr rfl)

theorem mem_setKey_of_ne (l : List (String × JSVal)) (k k2 : String) (v v2 : JSVal)
    (hmem : (k, v) ∈ l) (hne : k ≠ k2) : (k, v) ∈ setKey l k2 v2 := by
  unfold setKey
  split
  · have := List.mem_map_of_mem (fun p => if p.1 == k2 then (k2, v2) else p) hmem
    simpa [hne] using this
  · exact List.mem_append_left _ hmem

theorem capGPS_lat (t : ℕ) (v : JSVal) (c : GpsCap) :
    (capGPS t v c).lat = if t == 2 then v else c.lat := by
  unfold capGPS
  by_cases h2 : (t == 2) = true <;> by_cases h4 : (t == 4) = true <;>
    by_cases h1 : (t == 1) = true <;> by_cases h3 : (t == 3) = true <;>
    simp [h1, h2, h3, h4]

theorem capGPS_lon (t : ℕ) (v : JSVal) (c : GpsCap) :
    (capGPS t v c).lon = if t == 4 then v else c.lon := by
  unfold capGPS
  by_cases h2 : (t == 2) = true <;> by_cases h4 : (t == 4) = true <;>
    by_cases h1 : (t == 1) = true <;> by_cases h3 : (t == 3) = true <;>
    simp [h1, h2, h3, h4]

theorem processTags_cap_const (ifd : String) (table : ℕ → Option String) :
    ∀ (l : List (ℕ × JSVal)) (meta : List (String × JSVal)) (cap : GpsCap) r,
      processTags ifd table false l meta cap = .ok r → r.2 = cap := by
  intro l
  induction l with
  | nil => intro meta cap r h; cases h; rfl
  | cons x rest ih =>
    intro meta cap r h
    obtain ⟨t, v⟩ := x
    rw [processTags] at h
    cases hf : formatTagValue false t v with
    | error e => rw [hf] at h; cases h
    | ok v1 =>
      rw [hf] at h
      exact ih _ _ _ h

theorem processTags_cap_lat_skip (ifd : String) (table : ℕ → Option String) :
    ∀ (l : List (ℕ × JSVal)) (meta : List (String × JSVal)) (cap : GpsCap) r,
      2 ∉ l.map Prod.fst →
      processTags ifd table true l meta cap = .ok r → r.2.lat = cap.lat := by
  intro l
  induction l with
  | nil => intro meta cap r _ h; cases h; rfl
  | cons x rest ih =>
    intro meta cap r hk h
    obtain ⟨t, v⟩ := x
    rw [processTags] at h
    cases hf : formatTagValue true t v with
    | error e => rw [hf] at h; cases h
    | ok v1 =>
      rw [hf] at h
      have ht : t ≠ 2 := by
        intro he
        exact hk (by simp [he])
      have hcap := ih _ _ _ (fun hc => hk (List.mem_cons_of_mem _ hc)) h
      rw [hcap]
      show (capGPS t v cap).lat = cap.lat
      rw [capGPS_lat, if_neg (by simp [ht])]

theorem processTags_cap_lon_skip (ifd : String) (table : ℕ → Option String) :
    ∀ (l : List (ℕ × JSVal)) (meta : List (String × JSVal)) (cap : GpsCap) r,
      4 ∉ l.map Prod.fst →
      processTags ifd table true l meta cap = .ok r → r.2.lon = cap.lon := by
  intro l
  induction l with
  | nil => intro meta cap r _ h; cases h; rfl
  | cons x rest ih =>
    intro meta cap r hk h
    obtain ⟨t, v⟩ := x
    rw [processTags] at h
    cases hf : formatTagValue true t v with
    | error e => rw [hf] at h; cases h
    | ok v1 =>
      rw [hf] at h
      have ht : t ≠ 4 := by
        intro he
        exact hk (by simp [he])
      have hcap := ih _ _ _ (fun hc => hk (List.mem_cons_of_mem _ hc)) h
      rw [hcap]
      show (capGPS t v cap).lon = cap.lon
      rw [capGPS_lon, if_neg (by simp [ht])]

theorem processTags_cap_lat (ifd : String) (table : ℕ → Option String) :
    ∀ (l : List (ℕ × JSVal)) (meta : List (String × JSVal)) (cap : GpsCap) r (lat : JSVal),
      (l.map Prod.fst).Nodup → (2, lat) ∈ l →
      processTags ifd table true l meta cap = .ok r → r.2.lat = lat := by
  intro l
  induction l with
  | nil => intro meta cap r lat _ hm; cases hm
  | cons x rest ih =>
    intro meta cap r lat hnd hm h
    obtain ⟨t, v⟩ := x
    obtain ⟨hnotin, hndrest⟩ := List.nodup_cons.mp hnd
    rw [processTags] at h
    cases hf : formatTagValue true t v with
    | error e => rw [hf] at h; cases h
    | ok v1 =>
      rw [hf] at h
      rcases List.mem_cons.mp hm with heq | hrest
      · injection heq with ht hv
        subst ht; subst hv
        have hskip := processTags_cap_lat_skip ifd table rest _ _ _ hnotin h
        rw [hskip]
        show (capGPS 2 lat cap).lat = lat
        rw [capGPS_lat]
        simp
      · exact ih _ _ _ _ hndrest hrest h

theorem processTags_cap_lon (ifd : String) (table : ℕ → Option String) :
    ∀ (l : List (ℕ × JSVal)) (meta : List (String × JSVal)) (cap : GpsCap) r (lon : JSVal),
      (l.map Prod.fst).Nodup → (4, lon) ∈ l →
      processTags ifd table true l meta cap = .ok r → r.2.lon = lon := by
  intro l
  induction l with
  | nil => intro meta cap r lon _ hm; cases hm
  | cons x rest ih =>
    intro meta cap r lon hnd hm h
    obtain ⟨t, v⟩ := x
    obtain ⟨hnotin, hndrest⟩ := List.nodup_cons.mp hnd
    rw [processTags] at h
    cases hf : formatTagValue true t v with
    | error e => rw [hf] at h; cases h
    | ok v1 =>
      rw [hf] at h
      rcases List.mem_cons.mp hm with heq | hrest
      · injection heq with ht hv
        subst ht; subst hv
        have hskip := processTags_cap_lon_skip ifd table rest _ _ _ hnotin h
        rw [hskip]
        show (capGPS 4 lon cap).lon = lon
        rw [capGPS_lon]
        simp
      · exact ih _ _ _ _ hndrest hrest h

theorem head_ne_of_strings (a b : String) (ha : a.data.head? ≠ b.data.head?) : a ≠ b :=
  fun e => ha (congrArg (fun s => s.data.head?) e)

theorem nth_ne_of_strings (n : ℕ) (a b : String) (ha : a.data.get? n ≠ b.data.get? n) :
    a ≠ b :=
  fun e => ha (congrArg (fun s => s.data.get? n) e)

theorem tagDisplayName_0th_ne_location (t : ℕ) :
    tagDisplayName "0th" tag0th t ≠ locationKey := by
  unfold tagDisplayName tag0th
  split <;> first
  | decide
  | · simp only [Option.getD_none]
      apply head_ne_of_strings
      rw [show (("0th" ++ " Tag " ++ toString t).data.head?) = some (Char.ofNat 48) from rfl]
      decide

theorem tagDisplayName_Exif_ne_location (t : ℕ) :
    tagDisplayName "Exif" tagExif t ≠ locationKey := by
  unfold tagDisplayName tagExif
  split <;> first
  | decide
  | · simp only [Option.getD_none]
      apply head_ne_of_strings
      rw [show (("Exif" ++ " Tag " ++ toString t).data.head?) = some (Char.ofNat 69) from rfl]
      decide

theorem tagDisplayName_GPS_ne_location (t : ℕ) :
    tagDisplayName "GPS" tagGPS t ≠ locationKey := by
  unfold tagDisplayName tagGPS
  split <;> first
  | decide
  | · simp only [Option.getD_none]
      apply head_ne_of_strings
      rw [show (("GPS" ++ " Tag " ++ toString t).data.head?) = some (Char.ofNat 71) from rfl]
      decide

theorem tagDisplayName_ne_GPSLat (ifd : String) (table : ℕ → Option String) (t : ℕ)
    (h0 : ifd = "0th" ∧ table = tag0th ∨ ifd = "Exif" ∧ table = tagExif ∨
      ifd = "GPS" ∧ table = tagGPS ∧ t ≠ 2) :
    tagDisplayName ifd table t ≠ "GPS Latitude" := by
  rcases h0 with ⟨hi, ht⟩ | ⟨hi, ht⟩ | ⟨hi, ht, htag⟩ <;> subst hi <;> subst ht
  · unfold tagDisplayName tag0th
    split <;> first
    | decide
    | · simp only [Option.getD_none]
        apply nth_ne_of_strings 0
        rw [show (("0th" ++ " Tag " ++ toString t).data.get? 0) = some (Char.ofNat 48) from rfl]
        decide
  · unfold tagDisplayName tagExif
    split <;> first
    | decide
    | · simp only [Option.getD_none]
        apply nth_ne_of_strings 0
        rw [show (("Exif" ++ " Tag " ++ toString t).data.get? 0) = some (Char.ofNat 69) from rfl]
        decide
  · unfold tagDisplayName tagGPS
    split <;> first
    | (intro hc; exact htag (by omega))
    | decide
    | · simp only [Option.getD_none]
        apply nth_ne_of_strings 4
        rw [show (("GPS" ++ " Tag " ++ toString t).data.get? 4) = some (Char.ofNat 84) from rfl]
        decide

theorem tagDisplayName_ne_GPSLon (ifd : String) (table : ℕ → Option String) (t : ℕ)
    (h0 : ifd = "0th" ∧ table = tag0th ∨ ifd = "Exif" ∧ table = tagExif ∨
      ifd = "GPS" ∧ table = tagGPS ∧ t ≠ 4) :
    tagDisplayName ifd table t ≠ "GPS Longitude" := by
  rcases h0 with ⟨hi, ht⟩ | ⟨hi, ht⟩ | ⟨hi, ht, htag⟩ <;> subst hi <;> subst ht
  · unfold tagDisplayName tag0th
    split <;> first
    | decide
    | · simp only [Option.getD_none]
        apply nth_ne_of_strings 0
        rw [show (("0th" ++ " Tag " ++ toString t).data.get? 0) = some (Char.ofNat 48) from rfl]
        decide
  · unfold tagDisplayName tagExif
    split <;> first
    | decide
    | · simp only [Option.getD_none]
        apply nth_ne_of_strings 0
        rw [show (("Exif" ++ " Tag " ++ toString t).data.get? 0) = some (Char.ofNat 69) from rfl]
        decide
  · unfold tagDisplayName tagGPS
    split <;> first
    | (intro hc; exact htag (by omega))
    | decide
    | · simp only [Option.getD_none]
        apply nth_ne_of_strings 4
        rw [show (("GPS" ++ " Tag " ++ toString t).data.get? 4) = some (Char.ofNat 84) from rfl]
        decide

theorem processTags_countKey_location (ifd : String) (table : ℕ → Option String) (isGPS : Bool)
    (hname : ∀ t, tagDisplayName ifd table t ≠ locationKey) :
    ∀ (l : List (ℕ × JSVal)) (meta : List (String × JSVal)) (cap : GpsCap) r,
      processTags ifd table isGPS l meta cap = .ok r →
      countKey locationKey r.1 = countKey locationKey meta := by
  intro l
  induction l with
  | nil => intro meta cap r h; cases h; rfl
  | cons x rest ih =>
    intro meta cap r h
    obtain ⟨t, v⟩ := x
    rw [processTags] at h
    cases hf : formatTagValue isGPS t v with
    | error e => rw [hf] at h; cases h
    | ok v1 =>
      rw [hf] at h
      rw [ih _ _ _ h]
      by_cases hd : dropVal v1 = true
      · rw [if_pos hd]
      · rw [if_neg hd]
        exact countKey_setKey_ne _ _ _ _ (beq_eq_false_iff_ne.mpr (hname t))

theorem processTags_mem_preserved (ifd : String) (table : ℕ → Option String) (isGPS : Bool)
    (k0 : String) (v0 : JSVal) :
    ∀ (l : List (ℕ × JSVal)) (meta : List (String × JSVal)) (cap : GpsCap) r,
      (∀ t v, (t, v) ∈ l → tagDisplayName ifd table t ≠ k0) →
      (k0, v0) ∈ meta →
      processTags ifd table isGPS l meta cap = .ok r → (k0, v0) ∈ r.1 := by
  intro l
  induction l with
  | nil => intro meta cap r _ hm h; cases h; exact hm
  | cons x rest ih =>
    intro meta cap r hname hm h
    obtain ⟨t, v⟩ := x
    rw [processTags] at h
    cases hf : formatTagValue isGPS t v with
    | error e => rw [hf] at h; cases h
    | ok v1 =>
      rw [hf] at h
      refine ih _ _ _ (fun t2 v2 hm2 => hname t2 v2 (List.mem_cons_of_mem _ hm2)) ?_ h
      by_cases hd : dropVal v1 = true
      · rw [if_pos hd]; exact hm
      · rw [if_neg hd]
        exact mem_setKey_of_ne _ _ _ _ _ hm (Ne.symm (hname t v (List.mem_cons_self _ _)))

theorem formatDMS_ok_str (d0 m0 s0 : JSVal) (v : JSVal)
    (h : formatDMS d0 m0 s0 = .ok v) : ∃ s, v = .str s ∧ s.isEmpty = false := by
  unfold formatDMS at h
  cases h2 : jsToFixed (sanitizeNumber s0) 2 with
  | error e => rw [h2] at h; cases h
  | ok sf =>
    rw [h2] at h
    cases h6 : jsToFixed (gpsDecimalOf (sanitizeNumber d0) (sanitizeNumber m0)
        (sanitizeNumber s0)) 6 with
    | error e => rw [h6] at h; cases h
    | ok df =>
      rw [h6] at h
      injection h with h
      refine ⟨_, h.symm, ?_⟩
      rw [Bool.eq_false_iff]
      intro hc
      have he := (String.isEmpty_iff _).mp hc
      have hlen := congrArg String.length he
      simp only [String.length_append, String.length_empty,
        show ("° " : String).length = 2 from rfl] at hlen
      omega

theorem formatGPSCoordinate_triple (c0 c1 c2 : JSVal) :
    formatGPSCoordinate (.arr [c0, c1, c2]) =
      formatDMS (gpsRawComponents c0 c1 c2).1 (gpsRawComponents c0 c1 c2).2.1
        (gpsRawComponents c0 c1 c2).2.2 := rfl

theorem processTags_gps_lat_row :
    ∀ (l : List (ℕ × JSVal)) (meta : List (String × JSVal)) (cap : GpsCap) r (lat : JSVal),
      (l.map Prod.fst).Nodup → (2, lat) ∈ l → isTriple lat = true →
      processTags "GPS" tagGPS true l meta cap = .ok r →
      ∃ s, formatGPSCoordinate lat = .ok (.str s) ∧ ("GPS Latitude", .str s) ∈ r.1 := by
  intro l
  induction l with
  | nil => intro meta cap r lat _ hm; cases hm
  | cons x rest ih =>
    intro meta cap r lat hnd hm htrip h
    obtain ⟨t, v⟩ := x
    obtain ⟨hnotin, hndrest⟩ := List.nodup_cons.mp hnd
    rw [processTags] at h
    rcases List.mem_cons.mp hm with heq | hrest
    · injection heq with ht hv
      subst ht; subst hv
      obtain ⟨a, b, c, habc⟩ : ∃ a b c, lat = JSVal.arr [a, b, c] := by
        cases lat with
        | arr l0 =>
          rcases l0 with _ | ⟨a, _ | ⟨b, _ | ⟨c, _ | rest0⟩⟩⟩ <;> simp [isTriple] at htrip
          exact ⟨a, b, c, rfl⟩
        | undef => simp [isTriple] at htrip
        | null => simp [isTriple] at htrip
        | bool b => simp [isTriple] at htrip
        | num n => simp [isTriple] at htrip
        | str s => simp [isTriple] at htrip
      subst habc
      have hfv : formatTagValue true 2 (JSVal.arr [a, b, c]) =
          formatGPSCoordinate (JSVal.arr [a, b, c]) := rfl
      rw [hfv] at h
      cases hf : formatGPSCoordinate (JSVal.arr [a, b, c]) with
      | error e => rw [hf] at h; cases h
      | ok v1 =>
        rw [hf] at h
        obtain ⟨s, hvs, hse⟩ := formatDMS_ok_str _ _ _ _ (formatGPSCoordinate_triple a b c ▸ hf)
        subst hvs
        have hdrop : dropVal (.str s) = false := hse
        simp only [hdrop, Bool.false_eq_true, if_false] at h
        refine ⟨s, rfl, ?_⟩
        have hname2 : tagDisplayName "GPS" tagGPS 2 = "GPS Latitude" := rfl
        have hmem1 : ("GPS Latitude", JSVal.str s) ∈
            setKey meta (tagDisplayName "GPS" tagGPS 2) (.str s) := by
          rw [hname2]; exact mem_setKey_self _ _ _
        exact processTags_mem_preserved "GPS" tagGPS true _ _ rest _ _ _
          (fun t2 v2 hm2 => tagDisplayName_ne_GPSLat _ _ _
            (Or.inr (Or.inr ⟨rfl, rfl, by
              intro he
              subst he
              exact hnotin (List.mem_map.mpr ⟨_, hm2, rfl⟩)⟩)))
          hmem1 h
    · cases hf : formatTagValue true t v with
      | error e => rw [hf] at h; cases h
      | ok v1 =>
        rw [hf] at h
        exact ih _ _ _ _ hndrest hrest htrip h

theorem processTags_gps_lon_row :
    ∀ (l : List (ℕ × JSVal)) (meta : List (String × JSVal)) (cap : GpsCap) r (lon : JSVal),
      (l.map Prod.fst).Nodup → (4, lon) ∈ l → isTriple lon = true →
      processTags "GPS" tagGPS true l meta cap = .ok r →
      ∃ s, formatGPSCoordinate lon = .ok (.str s) ∧ ("GPS Longitude", .str s) ∈ r.1 := by
  intro l
  induction l with
  | nil => intro meta cap r lon _ hm; cases hm
  | cons x rest ih =>
    intro meta cap r lon hnd hm htrip h
    obtain ⟨t, v⟩ := x
    obtain ⟨hnotin, hndrest⟩ := List.nodup_cons.mp hnd
    rw [processTags] at h
    rcases List.mem_cons.mp hm with heq | hrest
    · injection heq with ht hv
      subst ht; subst hv
      obtain ⟨a, b, c, habc⟩ : ∃ a b c, lon = JSVal.arr [a, b, c] := by
        cases lon with
        | arr l0 =>
          rcases l0 with _ | ⟨a, _ | ⟨b, _ | ⟨c, _ | rest0⟩⟩⟩ <;> simp [isTriple] at htrip
          exact ⟨a, b, c, rfl⟩
        | undef => simp [isTriple] at htrip
        | null => simp [isTriple] at htrip
        | bool b => simp [isTriple] at htrip
        | num n => simp [isTriple] at htrip
        | str s => simp [isTriple] at htrip
      subst habc
      have hfv : formatTagValue true 4 (JSVal.arr [a, b, c]) =
          formatGPSCoordinate (JSVal.arr [a, b, c]) := rfl
      rw [hfv] at h
      cases hf : formatGPSCoordinate (JSVal.arr [a, b, c]) with
      | error e => rw [hf] at h; cases h
      | ok v1 =>
        rw [hf] at h
        obtain ⟨s, hvs, hse⟩ := formatDMS_ok_str _ _ _ _ (formatGPSCoordinate_triple a b c ▸ hf)
        subst hvs
        have hdrop : dropVal (.str s) = false := hse
        simp only [hdrop, Bool.false_eq_true, if_false] at h
        refine ⟨s, rfl, ?_⟩
        have hname4 : tagDisplayName "GPS" tagGPS 4 = "GPS Longitude" := rfl
        have hmem1 : ("GPS Longitude", JSVal.str s) ∈
            setKey meta (tagDisplayName "GPS" tagGPS 4) (.str s) := by
          rw [hname4]; exact mem_setKey_self _ _ _
        exact processTags_mem_preserved "GPS" tagGPS true _ _ rest _ _ _
          (fun t2 v2 hm2 => tagDisplayName_ne_GPSLon _ _ _
            (Or.inr (Or.inr ⟨rfl, rfl, by
              intro he
              subst he
              exact hnotin (List.mem_map.mpr ⟨_, hm2, rfl⟩)⟩)))
          hmem1 h
    · cases hf : formatTagValue true t v with
      | error e => rw [hf] at h; cases h
      | ok v1 =>
        rw [hf] at h
        exact ih _ _ _ _ hndrest hrest htrip h

theorem gpsDecimalOf_num (n0 : JSNum) (m s : JSVal) :
    gpsDecimalOf (.num n0) m s =
      .num (numAdd (numAdd n0 (jsDiv m (.num (.num 60)))) (jsDiv s (.num (.num 3600)))) := rfl

theorem convertGPSToDecimal_triple_num (c0 c1 c2 ref : JSVal) :
    ∃ n, convertGPSToDecimal (.arr [c0, c1, c2]) ref = some (.num n) := by
  have hshape : ∀ d m s : JSVal, (∃ n0, d = .num n0) →
      ∃ n, (some (if (strictEqStr ref "S" || strictEqStr ref "W") = true
        then jsMulNeg1 (gpsDecimalOf d m s) else gpsDecimalOf d m s) : Option JSVal) =
          some (.num n) := by
    rintro d m s ⟨n0, rfl⟩
    by_cases hc : (strictEqStr ref "S" || strictEqStr ref "W") = true
    · rw [if_pos hc]; exact ⟨_, rfl⟩
    · rw [if_neg hc]; exact ⟨_, rfl⟩
  by_cases h0 : isNumberType c0 = true
  · obtain ⟨n0, rfl⟩ : ∃ n0, c0 = .num n0 := by
      cases c0 with
      | num n0 => exact ⟨n0, rfl⟩
      | undef => simp [isNumberType] at h0
      | null => simp [isNumberType] at h0
      | bool b => simp [isNumberType] at h0
      | str s => simp [isNumberType] at h0
      | arr l => simp [isNumberType] at h0
    have hred : convertGPSToDecimal (.arr [.num n0, c1, c2]) ref =
        some (if (strictEqStr ref "S" || strictEqStr ref "W") = true
          then jsMulNeg1 (gpsDecimalOf (.num n0) c1 c2)
          else gpsDecimalOf (.num n0) c1 c2) := by
      simp [convertGPSToDecimal, gpsRawComponents, isNumberType]
    rw [hred]
    exact hshape _ _ _ ⟨n0, rfl⟩
  · have hred : convertGPSToDecimal (.arr [c0, c1, c2]) ref =
        some (if (strictEqStr ref "S" || strictEqStr ref "W") = true
          then jsMulNeg1 (gpsDecimalOf (.num (convertRational c0)) (.num (convertRational c1))
            (.num (convertRational c2)))
          else gpsDecimalOf (.num (convertRational c0)) (.num (convertRational c1))
            (.num (convertRational c2))) := by
      simp [convertGPSToDecimal, gpsRawComponents, h0]
    rw [hred]
    exact hshape _ _ _ ⟨_, rfl⟩

theorem addGPSMapLink_triples (lat lon r1 r2 : JSVal)
    (hlat : isTriple lat = true) (hlon : isTriple lon = true) :
    ∃ s, addGPSMapLink lat lon r1 r2 = .ok (some s) := by
  obtain ⟨a, b, c, hl⟩ : ∃ a b c, lat = JSVal.arr [a, b, c] := by
    cases lat with
    | arr l0 =>
      rcases l0 with _ | ⟨a, _ | ⟨b, _ | ⟨c, _ | rest0⟩⟩⟩ <;> simp [isTriple] at hlat
      exact ⟨a, b, c, rfl⟩
    | undef => simp [isTriple] at hlat
    | null => simp [isTriple] at hlat
    | bool b => simp [isTriple] at hlat
    | num n => simp [isTriple] at hlat
    | str s => simp [isTriple] at hlat
  obtain ⟨d, e, f, ho⟩ : ∃ d e f, lon = JSVal.arr [d, e, f] := by
    cases lon with
    | arr l0 =>
      rcases l0 with _ | ⟨d, _ | ⟨e, _ | ⟨f, _ | rest0⟩⟩⟩ <;> simp [isTriple] at hlon
      exact ⟨d, e, f, rfl⟩
    | undef => simp [isTriple] at hlon
    | null => simp [isTriple] at hlon
    | bool b => simp [isTriple] at hlon
    | num n => simp [isTriple] at hlon
    | str s => simp [isTriple] at hlon
  subst hl; subst ho
  obtain ⟨n1, h1⟩ := convertGPSToDecimal_triple_num a b c r1
  obtain ⟨n2, h2⟩ := convertGPSToDecimal_triple_num d e f r2
  unfold addGPSMapLink
  rw [h1, h2]
  exact ⟨_, rfl⟩

theorem jsTruthy_triple (v : JSVal) (h : isTriple v = true) : jsTruthy v = true := by
  cases v with
  | arr l => rfl
  | undef => simp [isTriple] at h
  | null => simp [isTriple] at h
  | bool b => simp [isTriple] at h
  | num n => simp [isTriple] at h
  | str s => simp [isTriple] at h

theorem runIFD_countKey_location (ifd : String) (table : ℕ → Option String) (isGPS : Bool)
    (hname : ∀ t, tagDisplayName ifd table t ≠ locationKey)
    (dict : Option (List (ℕ × JSVal))) (meta : List (String × JSVal)) (cap : GpsCap) r
    (h : runIFD ifd table isGPS dict meta cap = .ok r) :
    countKey locationKey r.1 = countKey locationKey meta := by
  cases dict with
  | none => cases h; rfl
  | some l => exact processTags_countKey_location ifd table isGPS hname l meta cap r h

theorem runIFD_cap_const (ifd : String) (table : ℕ → Option String)
    (dict : Option (List (ℕ × JSVal))) (meta : List (String × JSVal)) (cap : GpsCap) r
    (h : runIFD ifd table false dict meta cap = .ok r) : r.2 = cap := by
  cases dict with
  | none => cases h; rfl
  | some l => exact processTags_cap_const ifd table l meta cap r h

/-- C7 counterexample: with GPS tags 2 and 4 both present but the
latitude value a one-element array, the interpreter emits no synthetic
location field at all (the map link requires both values to convert to
non-null decimals), refuting the claim that presence of both tags always
yields exactly one location field. -/
theorem c7_counterexample :
    parseExifData ⟨none, none, some [(2, .arr [.arr [.num (.num 1), .num (.num 1)]]),
        (4, .arr [.num (.num 0), .num (.num 0), .num (.num 0)])]⟩ =
      .ok [("GPS Latitude", .arr [.arr [.num (.num 1), .num (.num 1)]]),
           ("GPS Longitude", .str ("0° 0" ++ aposStr ++ " 0.00" ++ quoteStr ++ " (0.000000°)"))] ∧
    countKey locationKey
      [("GPS Latitude", .arr [.arr [.num (.num 1), .num (.num 1)]]),
       ("GPS Longitude", .str ("0° 0" ++ aposStr ++ " 0.00" ++ quoteStr ++ " (0.000000°)"))] = 0 ∧
    (0 : ℕ) ≠ 1 := by
  exact ⟨rfl, by decide, by decide⟩

/-- C7 amended: whenever the GPS directory contains tag 2 and tag 4 with
3-element coordinate array values (and the parse succeeds), the
interpreter emits exactly one synthetic location field under the
map-link key, and this field is additive: the raw formatted latitude and
longitude rows are still present in the output. -/
theorem c7_location_field (z e : Option (List (ℕ × JSVal))) (g : List (ℕ × JSVal))
    (lat lon : JSVal) (out : List (String × JSVal))
    (hnd : (g.map Prod.fst).Nodup)
    (hlat : (2, lat) ∈ g) (hlon : (4, lon) ∈ g)
    (htlat : isTriple lat = true) (htlon : isTriple lon = true)
    (hparse : parseExifData ⟨z, e, some g⟩ = .ok out) :
    countKey locationKey out = 1 ∧
    (∃ s, formatGPSCoordinate lat = .ok (.str s) ∧ ("GPS Latitude", .str s) ∈ out) ∧
    (∃ s, formatGPSCoordinate lon = .ok (.str s) ∧ ("GPS Longitude", .str s) ∈ out) := by
  unfold parseExifData at hparse
  dsimp only at hparse
  cases h0 : runIFD "0th" tag0th false z [] ⟨.null, .null, .null, .null⟩ with
  | error e0 => rw [h0] at hparse; cases hparse
  | ok p1 =>
    obtain ⟨m1, c1⟩ := p1
    simp only [h0] at hparse
    cases h1 : runIFD "Exif" tagExif false e m1 c1 with
    | error e1 => rw [h1] at hparse; cases hparse
    | ok p2 =>
      obtain ⟨m2, c2⟩ := p2
      simp only [h1] at hparse
      cases h2 : runIFD "GPS" tagGPS true (some g) m2 c2 with
      | error e2 => rw [h2] at hparse; cases hparse
      | ok p3 =>
        obtain ⟨m3, c3⟩ := p3
        simp only [h2] at hparse
        have hc3lat : c3.lat = lat :=
          processTags_cap_lat "GPS" tagGPS g m2 c2 (m3, c3) lat hnd hlat h2
        have hc3lon : c3.lon = lon :=
          processTags_cap_lon "GPS" tagGPS g m2 c2 (m3, c3) lon hnd hlon h2
        have hcount1 : countKey locationKey m1 = 0 :=
          runIFD_countKey_location "0th" tag0th false tagDisplayName_0th_ne_location
            z [] _ _ h0
        have hcount2 : countKey locationKey m2 = 0 := by
          rw [runIFD_countKey_location "Exif" tagExif false tagDisplayName_Exif_ne_location
            e m1 c1 _ h1]
          exact hcount1
        have hcount3 : countKey locationKey m3 = 0 := by
          rw [runIFD_countKey_location "GPS" tagGPS true tagDisplayName_GPS_ne_location
            (some g) m2 c2 _ h2]
          exact hcount2
        obtain ⟨slat, hslat, hslatmem⟩ :=
          processTags_gps_lat_row g m2 c2 (m3, c3) lat hnd hlat htlat h2
        obtain ⟨slon, hslon, hslonmem⟩ :=
          processTags_gps_lon_row g m2 c2 (m3, c3) lon hnd hlon htlon h2
        have htruthy : (jsTruthy c3.lat && jsTruthy c3.lon) = true := by
          rw [hc3lat, hc3lon, jsTruthy_triple _ htlat, jsTruthy_triple _ htlon]
          rfl
        obtain ⟨link, hlink⟩ :=
          addGPSMapLink_triples c3.lat c3.lon c3.latRef c3.lonRef
            (hc3lat ▸ htlat) (hc3lon ▸ htlon)
        simp only [htruthy, if_true, hlink] at hparse
        injection hparse with hout
        subst hout
        refine ⟨countKey_setKey_new _ _ _ hcount3, ⟨slat, hslat, ?_⟩, ⟨slon, hslon, ?_⟩⟩
        · exact mem_setKey_of_ne _ _ _ _ _ hslatmem (by decide)
        · exact mem_setKey_of_ne _ _ _ _ _ hslonmem (by decide)

/-- C7 witness: the zero-valued triples [0,0,0] with references N and E
still generate the map link — the decimal pair is (0.000000, 0.000000)
and exactly one location field is emitted next to the raw rows. -/
theorem c7_location_field_witness :
    ∃ out, parseExifData ⟨none, none, some [(1, .str "N"),
        (2, .arr [.num (.num 0), .num (.num 0), .num (.num 0)]), (3, .str "E"),
        (4, .arr [.num (.num 0), .num (.num 0), .num (.num 0)])]⟩ = .ok out ∧
      countKey locationKey out = 1 ∧
      (∃ s, ("GPS Latitude", JSVal.str s) ∈ out) ∧
      (∃ s, ("GPS Longitude", JSVal.str s) ∈ out) := by
  have h := c7_location_field none none
    [(1, .str "N"), (2, .arr [.num (.num 0), .num (.num 0), .num (.num 0)]), (3, .str "E"),
     (4, .arr [.num (.num 0), .num (.num 0), .num (.num 0)])]
    (.arr [.num (.num 0), .num (.num 0), .num (.num 0)])
    (.arr [.num (.num 0), .num (.num 0), .num (.num 0)])
    _ (by decide)
    (List.mem_cons_of_mem _ (List.mem_cons_self _ _))
    (by
      apply List.mem_cons_of_mem
      apply List.mem_cons_of_mem
      apply List.mem_cons_of_mem
      exact List.mem_cons_self _ _)
    rfl rfl rfl
  exact ⟨_, rfl, h.1, ⟨h.2.1.choose, h.2.1.choose_spec.2⟩, ⟨h.2.2.choose, h.2.2.choose_spec.2⟩⟩

example : numToString (.num 0) = "0" := by decide

example : numToString (.num (mkRat 463 10)) = "46.3" := by decide

example : numToFixed (.num (mkRat 463 10)) 2 = "46.30" := by decide

example : numToFixed (.num 0) 6 = "0.000000" := by decide

example : jsStringToNumber "26,1" = .nan := by decide

example : jsStringToNumber "" = .num 0 := by decide

example : jsStringToNumber " 12.5 " = .num (mkRat 25 2) := by decide

example : numToFixed (.num (mkRat 1456063 36000)) 6 = "40.446194" := by decide

example : numToString (.num (ratNeg (mkRat 3 2))) = "-1.5" := by decide

example :
    formatGPSCoordinate (.arr [.arr [.num (.num 40), .num (.num 1)],
      .arr [.num (.num 26), .num (.num 1)], .arr [.num (.num 4630), .num (.num 100)]]) =
    .ok (.str ("40° 26" ++ aposStr ++ " 46.30" ++ quoteStr ++ " (40.446194°)")) := by rfl

example : formatGPSCoordinate (.arr [.num (.num 1), .num (.num 2), .null]) = .error () := by rfl

example :
    convertGPSToDecimal (.arr [.num .nan, .num (.num 0), .num (.num 0)]) (.str "N") =
    some (.num .nan) := by rfl

example :
    part001_formatGPSCoordinate (.arr [.arr [.num (.num 0), .num (.num 1)],
      .arr [.num (.num 0), .num (.num 1)], .arr [.num (.num 0), .num (.num 0)]]) =
    .ok (.str ("0° 0" ++ aposStr ++ " NaN" ++ quoteStr)) := by rfl

example : formatGPSCoordinate (.str "x") = .ok (.str "x") := by rfl

example :
    formatGPSCoordinate (.arr [.num (.num 40), .arr [.num (.num 26), .num (.num 1)],
      .arr [.num (.num 4630), .num (.num 100)]]) =
    .ok (.str ("40° 0" ++ aposStr ++ " 0.00" ++ quoteStr ++ " (40.000000°)")) := by rfl
